import Mathlib

/-
  Verification development for the kokoru-garden-api authentication core.

  Shallow embedding of the auth subsystem:
    - src/modules/auth/auth.service.ts        (AuthService orchestrator)
    - src/modules/auth/token.service.ts       (TokenService, RateLimiterService)
    - src/modules/auth/password.service.ts    (PasswordService)
    - src/modules/auth/user.repository.ts     (UserRepository)
    - src/modules/auth/services/oauth.service.ts (OAuthService)

  Modelling conventions:
    - Timestamps are Nat seconds (the source uses JS Date milliseconds; only
      relative comparisons and fixed offsets matter to the claims, so the unit
      is uniform).
    - The relational store is a list of user records; the Redis fast store is
      an association list with explicit absolute expiry times.
    - SHA-256 (createHash('sha256')...digest('hex')) is modelled by an
      injective tagging function on strings; the source relies only on
      determinism and (overwhelming-probability) injectivity.
    - A signed JWT is modelled as a record carrying its claims together with
      the secret that signed it; signature verification is modelled as
      equality of that secret with the verifier's secret.  jsonwebtoken's
      sign-time option validation (rejecting an `expiresIn` option when the
      payload already carries `exp`) is modelled explicitly, since the
      orchestrator's generateTokens always runs into it.
    - External collaborators injected into AuthService (argon2, the email
      dispatcher, the Google token exchange) are modelled as explicit
      function/outcome parameters, mirroring the constructor injection in the
      source.
-/

deriving instance DecidableEq for Except

/-! ## Kernel-friendly string helpers (used by the embedded validators) -/

/-- Split a character list at every occurrence of `sep` (mirrors
`String.prototype.split` with a single-character separator). -/
def splitOnChar (sep : Char) : List Char → List (List Char)
  | [] => [[]]
  | c :: cs =>
    let r := splitOnChar sep cs
    if c = sep then [] :: r
    else
      match r with
      | [] => [[c]]
      | h :: t => (c :: h) :: t

/-- Lowercase a string (model of `String.prototype.toLowerCase` on the ASCII
inputs the validators care about). -/
def toLowerString (s : String) : String :=
  String.mk (s.toList.map Char.toLower)

/-- Trim whitespace from both ends (model of `String.prototype.trim`). -/
def trimString (s : String) : String :=
  String.mk (((s.toList.dropWhile (fun c => c.isWhitespace)).reverse.dropWhile
    (fun c => c.isWhitespace)).reverse)

/-! ## Data model -/

/-- The `auth_provider` enum of the users table. -/
inductive AuthProvider
  | localProvider
  | googleProvider
deriving DecidableEq, Repr

/-- A signed JWT, modelled as its claims plus the signing secret; `raw` stands
for the serialized compact form (generation puts the fresh session id into it,
so distinct tokens have distinct `raw`). -/
structure Jwt where
  raw : String
  userId : String
  email : String
  sessionId : String
  tokenType : String
  iat : Nat
  exp : Nat
  issuer : String
  audience : Option String
  secret : String
deriving DecidableEq, Repr

/-- The `JwtPayload` interface of auth.types.ts. -/
structure JwtPayload where
  userId : String
  email : String
  iat : Nat
  exp : Nat
deriving DecidableEq, Repr

/-- A row of the `users` table (users.table.ts), restricted to the fields the
auth core reads or writes. -/
structure UserRec where
  id : String
  email : String
  firstName : String
  lastName : String
  password : Option String := none
  authProvider : AuthProvider := .localProvider
  googleId : Option String := none
  profileImageUrl : Option String := none
  isEmailVerified : Bool := false
  emailVerificationToken : Option String := none
  emailVerificationExpires : Option Nat := none
  passwordResetToken : Option String := none
  passwordResetExpires : Option Nat := none
  passwordChangedAt : Option Nat := none
  refreshToken : Option Jwt := none
  loginAttempts : Nat := 0
  lockedUntil : Option Nat := none
  lastLoginAt : Option Nat := none
  hasLoggedIn : Bool := false
  hasCompletedOnboarding : Bool := false
  onboardingStep : Nat := 0
deriving DecidableEq, Repr

/-- The relational store of identities. -/
abbrev UserStore := List UserRec

/-- The error taxonomy of shared/errors (one constructor per error class the
auth core raises).  `authentication` carries the optional non-generic message
(the source passes `MESSAGES[...]` for the google-account and
already-verified cases and nothing for the generic case).  `emailSend` stands
for a raw `Error` escaping from the awaited email dispatcher, and
`jwtSignError` for the raw `Error` jsonwebtoken's sign raises when the sign
options carry `expiresIn` while the payload already has an `exp` claim. -/
inductive AuthError
  | validation
  | conflict
  | authentication (msg : Option String)
  | notFound
  | invalidToken
  | tokenExpired
  | accountLocked
  | rateLimit
  | databaseFailure
  | emailSend
  | jwtSignError
deriving DecidableEq, Repr

/-- The string of `MESSAGES[MESSAGE_CODES.AUTH_GOOGLE_ACCOUNT_REQUIRED]`. -/
def MSG_GOOGLE_ACCOUNT_REQUIRED : String :=
  "This account was created with Google. Please sign in with Google."

/-- The string of `MESSAGES[MESSAGE_CODES.AUTH_EMAIL_ALREADY_VERIFIED]`. -/
def MSG_EMAIL_ALREADY_VERIFIED : String :=
  "Email is already verified"

/-! ## UserRepository input validation (user.repository.ts) -/

/-- Character class `[a-zA-Z0-9._%+-]` of the repository's email regex. -/
def isEmailLocalChar (c : Char) : Bool :=
  c.isAlphanum || c = '.' || c = '_' || c = '%' || c = '+' || c = '-'

/-- Character class `[a-zA-Z0-9.-]` of the repository's email regex. -/
def isEmailDomainChar (c : Char) : Bool :=
  c.isAlphanum || c = '.' || c = '-'

/-- Decides the repository's email regex
`^[a-zA-Z0-9._%+-]+@[a-zA-Z0-9.-]+\.[a-zA-Z]{2,}$`.  No character class
contains `@`, so a match has exactly one `@`; the final `[a-zA-Z]{2,}` is
anchored at the end, so the `\.` of a match is necessarily the last dot of
the domain part. -/
def emailRegexMatch (s : String) : Bool :=
  match splitOnChar '@' s.toList with
  | [loc, dom] =>
    (decide (loc ≠ [])) && loc.all isEmailLocalChar &&
    (let parts := splitOnChar '.' dom
     match parts.getLast? with
     | some tld =>
       (decide (2 ≤ parts.length)) &&
       dom.all isEmailDomainChar &&
       (decide (2 ≤ tld.length)) && tld.all (fun c => c.isAlpha) &&
       (decide (tld.length + 2 ≤ dom.length))
     | none => false)
  | _ => false

/-- UserRepository.validateEmail: lowercases and trims, then applies the
format regex and the 255-character cap; raises ValidationError otherwise. -/
def validateEmail (email : String) : Except AuthError String :=
  let sanitizedEmail := trimString (toLowerString email)
  if emailRegexMatch sanitizedEmail && decide (sanitizedEmail.length ≤ 255) then
    .ok sanitizedEmail
  else
    .error .validation

/-- Hexadecimal digit of the (lowercased) UUID regex. -/
def isLowerHexDigit (c : Char) : Bool :=
  c.isDigit || ('a' ≤ c && c ≤ 'f')

/-- Decides the repository's UUID-v4 regex
`^[0-9a-f]{8}-[0-9a-f]{4}-[4][0-9a-f]{3}-[89ab][0-9a-f]{3}-[0-9a-f]{12}$/i`
(the `/i` flag is modelled by lowercasing first). -/
def uuidV4Match (s : String) : Bool :=
  let t := (toLowerString s).toList
  match splitOnChar '-' t with
  | [a, b, c, d, e] =>
    (decide (a.length = 8)) && (decide (b.length = 4)) &&
    (decide (c.length = 4)) && (decide (d.length = 4)) &&
    (decide (e.length = 12)) &&
    (a ++ b ++ c ++ d ++ e).all isLowerHexDigit &&
    (match c with | c0 :: _ => decide (c0 = '4') | [] => false) &&
    (match d with
     | d0 :: _ => d0 = '8' || d0 = '9' || d0 = 'a' || d0 = 'b'
     | [] => false)
  | _ => false

/-- UserRepository.validateUserId: UUID-v4 format check, returns the
lowercased id; raises ValidationError otherwise. -/
def validateUserId (id : String) : Except AuthError String :=
  if uuidV4Match id then .ok (toLowerString id) else .error .validation

/-! ## UserRepository operations (user.repository.ts)

The drizzle queries are modelled over the list store.  Store/driver failures
(`DatabaseError`) and the 3-5s query timeouts are not modelled: every claim
below is about the success path of the store itself.  `updatedAt`
housekeeping is likewise outside the modelled fields. -/

/-- UserRepository.findByEmail (the timing-protection delay is real time and
not modelled; it does not affect the returned value). -/
def UserRepository.findByEmail (users : UserStore) (email : String) :
    Except AuthError (Option UserRec) :=
  match validateEmail email with
  | .error e => .error e
  | .ok validatedEmail => .ok (users.find? (fun u => u.email = validatedEmail))

/-- UserRepository.findById. -/
def UserRepository.findById (users : UserStore) (id : String) :
    Except AuthError (Option UserRec) :=
  match validateUserId id with
  | .error e => .error e
  | .ok validatedId => .ok (users.find? (fun u => u.id = validatedId))

/-- UserRepository.create: validates/normalizes the email, truncates a googleId
to 100 characters, and inserts the row.  (The email-uniqueness constraint is
enforced by the callers' prior `findByEmail` check in every modelled flow;
the store-level UniqueConstraintError race is out of scope.) -/
def UserRepository.create (users : UserStore) (userData : UserRec) :
    Except AuthError (UserRec × UserStore) :=
  match validateEmail userData.email with
  | .error e => .error e
  | .ok validatedEmail =>
    let created : UserRec :=
      { userData with
        email := validatedEmail
        googleId := userData.googleId.map (fun g => String.mk ((trimString g).toList.take 100)) }
    .ok (created, users ++ [created])

/-- UserRepository.update: validates the id and applies the field updates to
the matching row.  Call sites of the auth core never update `email`, so the
conditional email re-validation of the source is not reachable here. -/
def UserRepository.update (users : UserStore) (id : String) (f : UserRec → UserRec) :
    Except AuthError UserStore :=
  match validateUserId id with
  | .error e => .error e
  | .ok validatedId => .ok (users.map (fun u => if u.id = validatedId then f u else u))

/-- UserRepository.findByEmailVerificationToken: matches the hashed token AND
`emailVerificationExpires > now` in the same query. -/
def UserRepository.findByEmailVerificationToken (users : UserStore) (now : Nat)
    (hashedToken : String) : Option UserRec :=
  if hashedToken = "" then none
  else
    users.find? (fun u =>
      u.emailVerificationToken = some hashedToken &&
      (match u.emailVerificationExpires with
       | some t => decide (now < t)
       | none => false))

/-- UserRepository.findByPasswordResetToken: matches the hashed token AND
`passwordResetExpires > now` in the same query. -/
def UserRepository.findByPasswordResetToken (users : UserStore) (now : Nat)
    (hashedToken : String) : Option UserRec :=
  if hashedToken = "" then none
  else
    users.find? (fun u =>
      u.passwordResetToken = some hashedToken &&
      (match u.passwordResetExpires with
       | some t => decide (now < t)
       | none => false))

/-- UserRepository.findByRefreshToken (tokens are compared by their serialized
form; in the model the Jwt record stands for that string). -/
def UserRepository.findByRefreshToken (users : UserStore) (refreshToken : Jwt) :
    Option UserRec :=
  users.find? (fun u => u.refreshToken = some refreshToken)

/-- UserRepository.incrementLoginAttempts: atomic SQL
`SET login_attempts = login_attempts + 1`. -/
def UserRepository.incrementLoginAttempts (users : UserStore) (id : String) :
    Except AuthError UserStore :=
  UserRepository.update users id (fun u => { u with loginAttempts := u.loginAttempts + 1 })

/-- UserRepository.lockAccount: persists `lockedUntil`. -/
def UserRepository.lockAccount (users : UserStore) (id : String) (until_ : Nat) :
    Except AuthError UserStore :=
  UserRepository.update users id (fun u => { u with lockedUntil := some until_ })

/-! ## TokenService (token.service.ts) -/

/-- Model of `createHash('sha256').update(token).digest('hex')`: deterministic
and injective (the source depends on nothing else about the digest). -/
def hashToken (token : String) : String :=
  "sha256:" ++ token

/-- TokenService.parseTimeToSeconds: pure digits are seconds; `\d+[smhdw]`
(case-sensitive, as the source regex is) scales by the unit; anything else
defaults to 3600. -/
def parseTimeToSeconds (time : String) : Nat :=
  if time.toList ≠ [] && time.toList.all Char.isDigit then
    (String.toNat? time).getD 0
  else
    match time.toList.getLast? with
    | some u =>
      let digits := time.toList.dropLast
      if digits ≠ [] && digits.all Char.isDigit then
        let n := (String.toNat? (String.mk digits)).getD 0
        if u = 's' then n * 1
        else if u = 'm' then n * 60
        else if u = 'h' then n * 3600
        else if u = 'd' then n * 86400
        else if u = 'w' then n * 604800
        else 3600
      else 3600
    | none => 3600

/-- TokenService configuration (secrets, expiries, issuer). -/
structure TokenConfig where
  jwtAccessSecret : String
  jwtRefreshSecret : String
  jwtAccessExpiry : String
  jwtRefreshExpiry : String
  issuer : String
deriving DecidableEq, Repr

/-- Outcome classes of `jsonwebtoken.verify`. -/
inductive JwtVerifyError
  | expired
  | invalid
deriving DecidableEq, Repr

/-- Model of `jsonwebtoken.verify(token, secret, {issuer, audience?})`:
signature first, then expiry (`TokenExpiredError` when `now >= exp`), then the
audience/issuer claims (any mismatch is a `JsonWebTokenError`). -/
def jwtVerify (token : Jwt) (secret : String) (issuer : String)
    (audience : Option String) (now : Nat) : Except JwtVerifyError Jwt :=
  if token.secret ≠ secret then .error .invalid
  else if token.exp ≤ now then .error .expired
  else
    match audience with
    | some aud =>
      if token.audience = some aud then
        if token.issuer = issuer then .ok token else .error .invalid
      else .error .invalid
    | none =>
      if token.issuer = issuer then .ok token else .error .invalid

/-- Model of jsonwebtoken.sign's option validation: signing is REJECTED (a
raw `Error`, 'Bad "options.expiresIn" option the payload already has an "exp"
property') when the sign options set `expiresIn` while the payload to sign
already carries an `exp` claim; otherwise the signed token is produced. -/
def jwtSign (payloadHasExp : Bool) (optionsHaveExpiresIn : Bool) (token : Jwt) :
    Except AuthError Jwt :=
  if payloadHasExp && optionsHaveExpiresIn then .error .jwtSignError
  else .ok token

/-- TokenService.generateAccessToken: rejects a falsy `payload.userId` with
InvalidTokenError, then signs `{...payload, sessionId, type='access'}` with
the access secret, issuer from config, audience `kokoru-garden` and the
`expiresIn` sign option from the normalized config expiry.  The spread
payload is a `JwtPayload`, whose `exp` field is required, so the payload
handed to sign ALWAYS carries `exp` alongside the `expiresIn` option — a
combination jsonwebtoken rejects, so every call of this method fails with
that raw sign error.  (The session-record side effect is fire-and-forget and
does not influence any modelled claim.) -/
def TokenService.generateAccessToken (cfg : TokenConfig) (now : Nat)
    (sessionId : String) (payload : JwtPayload) : Except AuthError Jwt :=
  if payload.userId = "" then .error .invalidToken
  else
    jwtSign true true
      { raw := "jwt.access." ++ sessionId
        userId := payload.userId
        email := payload.email
        sessionId := sessionId
        tokenType := "access"
        iat := now
        exp := now + parseTimeToSeconds cfg.jwtAccessExpiry
        issuer := cfg.issuer
        audience := some "kokoru-garden"
        secret := cfg.jwtAccessSecret }

/-- TokenService.generateRefreshToken: rejects a falsy `payload.userId`, then
signs the freshly built payload `{userId, sessionId, type='refresh'}` — which
carries NO `exp` claim — with the refresh secret and the `expiresIn` option,
so this sign succeeds.  (The refresh-token shadow copy in Redis is
fire-and-forget.) -/
def TokenService.generateRefreshToken (cfg : TokenConfig) (now : Nat)
    (sessionId : String) (payload : JwtPayload) : Except AuthError Jwt :=
  if payload.userId = "" then .error .invalidToken
  else
    jwtSign false true
      { raw := "jwt.refresh." ++ sessionId
        userId := payload.userId
        email := ""
        sessionId := sessionId
        tokenType := "refresh"
        iat := now
        exp := now + parseTimeToSeconds cfg.jwtRefreshExpiry
        issuer := cfg.issuer
        audience := none
        secret := cfg.jwtRefreshSecret }

/-- TokenService.isTokenBlacklisted: Redis existence check on the hashed
token. -/
def TokenService.isTokenBlacklisted (blacklist : List String) (token : Jwt) : Bool :=
  blacklist.contains (hashToken token.raw)

/-- TokenService.verifyAccessToken.  First component: the returned payload or
the mapped error (`TokenExpiredError` / `InvalidTokenError`).  Second
component: whether the fire-and-forget blacklist lookup logged a hit — the
source only attaches a `.then` that logs; the returned payload never depends
on the blacklist. -/
def TokenService.verifyAccessToken (cfg : TokenConfig) (blacklist : List String)
    (now : Nat) (token : Jwt) : Except AuthError JwtPayload × Bool :=
  match jwtVerify token cfg.jwtAccessSecret cfg.issuer (some "kokoru-garden") now with
  | .ok decoded =>
    (.ok { userId := decoded.userId, email := decoded.email,
           iat := decoded.iat, exp := decoded.exp },
     TokenService.isTokenBlacklisted blacklist token)
  | .error .expired => (.error .tokenExpired, false)
  | .error .invalid => (.error .invalidToken, false)

/-- TokenService.verifyRefreshToken: signature+issuer only (no audience);
returns a minimal payload with an empty email. -/
def TokenService.verifyRefreshToken (cfg : TokenConfig) (now : Nat) (token : Jwt) :
    Except AuthError JwtPayload :=
  match jwtVerify token cfg.jwtRefreshSecret cfg.issuer none now with
  | .ok decoded =>
    .ok { userId := decoded.userId, email := "", iat := decoded.iat, exp := decoded.exp }
  | .error .expired => .error .tokenExpired
  | .error .invalid => .error .invalidToken

/-- TokenService.revokeToken: structural decode only, computes the remaining
TTL, no-ops when already expired, otherwise stores the hashed token in the
blacklist for that TTL (the TTL itself matters only to Redis expiry, which the
blacklist claims do not depend on). -/
def TokenService.revokeToken (now : Nat) (blacklist : List String) (token : Jwt) :
    List String :=
  if token.exp ≤ now then blacklist
  else hashToken token.raw :: blacklist

/-! ## RateLimiterService (rate-limiter part of token.service.ts) -/

/-- A Redis counter value together with its absolute expiry time (`none` means
no TTL, i.e. a persistent key, which is what a bare `INCR` creates). -/
structure CounterEntry where
  count : Nat
  expiresAt : Option Nat := none
deriving DecidableEq, Repr

/-- The fast-store keyspace for the login-attempt counters. -/
abbrev RateState := List (String × CounterEntry)

/-- First-match association lookup (model of a Redis key read, before expiry
filtering). -/
def rateLookup (st : RateState) (key : String) : Option CounterEntry :=
  match st with
  | [] => none
  | (k, e) :: rest => if k = key then some e else rateLookup rest key

/-- Replace-or-insert a key (model of a Redis write). -/
def rateSet (st : RateState) (key : String) (e : CounterEntry) : RateState :=
  (key, e) :: st.filter (fun p => if p.1 = key then false else true)

/-- A key is visible only while unexpired: `GET` on an expired key is nil. -/
def redisGetCounter (st : RateState) (now : Nat) (key : String) : Option CounterEntry :=
  match rateLookup st key with
  | some e =>
    match e.expiresAt with
    | some t => if now < t then some e else none
    | none => some e
  | none => none

/-- Redis `TTL`: -2 for a missing key, -1 for a key without expiry, otherwise
the remaining seconds. -/
def redisTTL (st : RateState) (now : Nat) (key : String) : Int :=
  match redisGetCounter st now key with
  | none => -2
  | some e =>
    match e.expiresAt with
    | none => -1
    | some t => (t : Int) - (now : Int)

/-- MAX_LOGIN_ATTEMPTS. -/
def MAX_LOGIN_ATTEMPTS : Nat := 5

/-- LOGIN_WINDOW: 15 minutes in seconds. -/
def LOGIN_WINDOW : Nat := 15 * 60

/-- EMAIL_RESEND_DELAY: 1 minute in seconds. -/
def EMAIL_RESEND_DELAY : Nat := 60

/-- Result shape of RateLimiterService.checkLoginAttempts. -/
structure LoginCheck where
  canAttempt : Bool
  attemptsRemaining : Nat
  lockedUntil : Option Nat := none
deriving DecidableEq, Repr

/-- RateLimiterService.checkLoginAttempts: reads the counter (0 when missing
or expired); when it has reached MAX_LOGIN_ATTEMPTS and the key still has a
positive TTL, refuses with `lockedUntil = now + ttl`; otherwise allows with
`attemptsRemaining = max 0 (MAX - count)`.  Pure read: never mutates. -/
def RateLimiterService.checkLoginAttempts (st : RateState) (now : Nat) (userId : String) :
    LoginCheck :=
  let key := "login_attempts:" ++ userId
  let attemptCount :=
    match redisGetCounter st now key with
    | some e => e.count
    | none => 0
  let ttl := redisTTL st now key
  if MAX_LOGIN_ATTEMPTS ≤ attemptCount ∧ 0 < ttl then
    { canAttempt := false, attemptsRemaining := 0, lockedUntil := some (now + ttl.toNat) }
  else
    { canAttempt := true, attemptsRemaining := MAX_LOGIN_ATTEMPTS - attemptCount }

/-- RateLimiterService.recordFailedLogin: `INCR` (which creates a fresh,
persistent key when absent or expired), then `EXPIRE key LOGIN_WINDOW` only
when the incremented value is 1 — so the window stays anchored to the first
failure. -/
def RateLimiterService.recordFailedLogin (st : RateState) (now : Nat) (userId : String) :
    RateState :=
  let key := "login_attempts:" ++ userId
  let incremented :=
    match redisGetCounter st now key with
    | some e => { e with count := e.count + 1 }
    | none => { count := 1, expiresAt := none : CounterEntry }
  let st1 := rateSet st key incremented
  if incremented.count = 1 then
    rateSet st1 key { incremented with expiresAt := some (now + LOGIN_WINDOW) }
  else
    st1

/-- RateLimiterService.resetLoginAttempts: `DEL` of the counter. -/
def RateLimiterService.resetLoginAttempts (st : RateState) (userId : String) : RateState :=
  st.filter (fun p => if p.1 = "login_attempts:" ++ userId then false else true)

/-- A recorded email-resend timestamp with its Redis expiry. -/
structure ResendEntry where
  sentAt : Nat
  expiresAt : Nat
deriving DecidableEq, Repr

/-- The fast-store keyspace for the email-resend cooldown. -/
abbrev ResendState := List (String × ResendEntry)

/-- First-match association lookup for resend entries. -/
def resendLookup (st : ResendState) (key : String) : Option ResendEntry :=
  match st with
  | [] => none
  | (k, e) :: rest => if k = key then some e else resendLookup rest key

/-- GET with expiry filtering for resend entries. -/
def resendGet (st : ResendState) (now : Nat) (key : String) : Option ResendEntry :=
  match resendLookup st key with
  | some e => if now < e.expiresAt then some e else none
  | none => none

/-- Result shape of RateLimiterService.checkEmailResend. -/
structure ResendCheck where
  canResend : Bool
  nextAllowedAt : Option Nat := none
deriving DecidableEq, Repr

/-- RateLimiterService.checkEmailResend: when a recorded send is within the
cooldown, refuses (without writing); otherwise records `now` with
`EX EMAIL_RESEND_DELAY` and allows. -/
def RateLimiterService.checkEmailResend (st : ResendState) (now : Nat) (userId : String) :
    ResendCheck × ResendState :=
  let key := "email_resend:" ++ userId
  let record :=
    ( { canResend := true : ResendCheck },
      (key, { sentAt := now, expiresAt := now + EMAIL_RESEND_DELAY : ResendEntry }) ::
        st.filter (fun p => if p.1 = key then false else true) )
  match resendGet st now key with
  | some lastSent =>
    if now - lastSent.sentAt < EMAIL_RESEND_DELAY then
      ({ canResend := false, nextAllowedAt := some (lastSent.sentAt + EMAIL_RESEND_DELAY) }, st)
    else
      record
  | none => record

/-! ## PasswordService (password.service.ts) -/

/-- The temporary-password charset
`abcdefghijklmnopqrstuvwxyzABCDEFGHIJKLMNOPQRSTUVWXYZ0123456789!@#$%^&*`. -/
def tempPasswordCharset : List Char :=
  "abcdefghijklmnopqrstuvwxyzABCDEFGHIJKLMNOPQRSTUVWXYZ0123456789!@#$%^&*".toList

/-- PasswordService.hasUppercase: the regex `/[A-Z]/`. -/
def hasUppercase (s : String) : Bool :=
  s.toList.any (fun c => 'A' ≤ c && c ≤ 'Z')

/-- PasswordService.hasLowercase: the regex `/[a-z]/`. -/
def hasLowercase (s : String) : Bool :=
  s.toList.any (fun c => 'a' ≤ c && c ≤ 'z')

/-- PasswordService.hasNumber: the regex `/\d/`. -/
def hasNumber (s : String) : Bool :=
  s.toList.any Char.isDigit

/-- The character class of PasswordService.hasSpecialChar. -/
def passwordSpecialChars : List Char :=
  ['!', '@', '#', '$', '%', '^', '&', '*', '(', ')', '_', '+', '-', '=',
   '[', ']', '{', '}', ';', '\'', ':', '"', '\\', '|', ',', '.', '<', '>', '/', '?']

/-- PasswordService.hasSpecialChar. -/
def hasSpecialChar (s : String) : Bool :=
  s.toList.any (fun c => passwordSpecialChars.contains c)

/-- Model of `password.slice(0, -1) + c` (drop the last character, append
`c`). -/
def replaceLastChar (cs : List Char) (c : Char) : List Char :=
  cs.dropLast ++ [c]

/-- PasswordService.generateTemporaryPassword, parameterized by the
configuration flag `requireSpecialChars` (default false in the source
constructor) and by the 12 bytes drawn from `randomBytes(12)`
(`randomBytesBuffer.getD i 0` mirrors indexing the buffer).  Each character is
`charset[byte % charset.length]`; the four fix-ups each rewrite the LAST
character of the current string. -/
def PasswordService.generateTemporaryPassword (requireSpecialChars : Bool)
    (randomBytesBuffer : List Nat) : String :=
  let length := 12
  let pw0 := (List.range length).map
    (fun i => tempPasswordCharset.getD ((randomBytesBuffer.getD i 0) % tempPasswordCharset.length) 'a')
  let pw1 := if hasUppercase (String.mk pw0) then pw0 else replaceLastChar pw0 'A'
  let pw2 := if hasLowercase (String.mk pw1) then pw1 else replaceLastChar pw1 'a'
  let pw3 := if hasNumber (String.mk pw2) then pw2 else replaceLastChar pw2 '1'
  let pw4 :=
    if requireSpecialChars && !hasSpecialChar (String.mk pw3) then
      replaceLastChar pw3 '!'
    else pw3
  String.mk pw4

/-- PasswordService.verify, parameterized by the argon2 collaborator:
`argonVerify hash password` is `argon2.verify` (which may reject on a
malformed hash) and `argonNeedsRehash hash` is `argon2.needsRehash` (awaited
only when the password was valid, inside the same try).  The whole body is a
try/catch whose catch returns `false`; the early `!hash || !password` guard
also returns `false`.  The result is `Except Unit Bool` so that "never
throws" is itself a provable statement. -/
def PasswordService.verify (argonVerify : String → String → Except Unit Bool)
    (argonNeedsRehash : String → Except Unit Bool)
    (hash password : String) : Except Unit Bool :=
  if hash = "" ∨ password = "" then .ok false
  else
    match argonVerify hash password with
    | .error _ => .ok false
    | .ok isValid =>
      if isValid then
        match argonNeedsRehash hash with
        | .error _ => .ok false
        | .ok _ => .ok isValid
      else .ok isValid

/-! ## AuthService (auth.service.ts) -/

/-- The sanitized identity view returned to callers (AuthService.sanitizeUser:
password hash, tokens and security counters stripped). -/
structure AuthUserView where
  id : String
  email : String
  firstName : String
  lastName : String
  authProvider : AuthProvider
  isEmailVerified : Bool
  hasLoggedIn : Bool
  hasCompletedOnboarding : Bool
  onboardingStep : Nat
deriving DecidableEq, Repr

/-- AuthService.sanitizeUser. -/
def AuthService.sanitizeUser (u : UserRec) : AuthUserView :=
  { id := u.id
    email := u.email
    firstName := u.firstName
    lastName := u.lastName
    authProvider := u.authProvider
    isEmailVerified := u.isEmailVerified
    hasLoggedIn := u.hasLoggedIn
    hasCompletedOnboarding := u.hasCompletedOnboarding
    onboardingStep := u.onboardingStep }

/-- The `AuthTokens` pair. -/
structure AuthTokens where
  accessToken : Jwt
  refreshToken : Jwt
  expiresIn : Nat
deriving DecidableEq, Repr

/-- AuthService.generateTokens: builds the payload with `iat = now` and
`exp = now + 15*60` and signs both tokens (`sidA`/`sidR` are the fresh random
session ids drawn inside the token service).  Because the payload carries
`exp` and generateAccessToken signs with the `expiresIn` option, the access
sign is rejected by jsonwebtoken, so this helper — and with it every flow
that issues tokens — fails with that raw sign error instead of returning a
pair. -/
def AuthService.generateTokens (cfg : TokenConfig) (now : Nat) (sidA sidR : String)
    (userId email : String) : Except AuthError AuthTokens :=
  let payload : JwtPayload := { userId := userId, email := email, iat := now, exp := now + 15 * 60 }
  match TokenService.generateAccessToken cfg now sidA payload with
  | .error e => .error e
  | .ok accessToken =>
    match TokenService.generateRefreshToken cfg now sidR payload with
    | .error e => .error e
    | .ok refreshToken =>
      .ok { accessToken := accessToken, refreshToken := refreshToken, expiresIn := 15 * 60 }

/-- AuthService.checkAccountStatus: AccountLockedError while `lockedUntil` is
in the future. -/
def AuthService.checkAccountStatus (user : UserRec) (now : Nat) : Except AuthError Unit :=
  match user.lockedUntil with
  | some t => if now < t then .error .accountLocked else .ok ()
  | none => .ok ()

/-- `TokenType` of auth.service.ts. -/
inductive TokenType
  | verification
  | reset
deriving DecidableEq, Repr

/-- AuthService.getTokenExpiry: 24h for verification tokens, 1h for reset
tokens. -/
def AuthService.getTokenExpiry (now : Nat) (t : TokenType) : Nat :=
  match t with
  | .verification => now + 24 * 60 * 60
  | .reset => now + 60 * 60

/-- AuthService.handleFailedLogin: increments the RELATIONAL `loginAttempts`
counter, then consults RateLimiterService.checkLoginAttempts (a pure read of
the Redis counter — the source never calls `recordFailedLogin`); when the
check refuses with a `lockedUntil`, persists it and raises
AccountLockedError. -/
def AuthService.handleFailedLogin (users : UserStore) (rate : RateState) (now : Nat)
    (userId : String) : Except AuthError Unit × UserStore :=
  match UserRepository.incrementLoginAttempts users userId with
  | .error e => (.error e, users)
  | .ok users1 =>
    let rateLimitCheck := RateLimiterService.checkLoginAttempts rate now userId
    if rateLimitCheck.canAttempt = false then
      match rateLimitCheck.lockedUntil with
      | some t =>
        match UserRepository.lockAccount users1 userId t with
        | .error e => (.error e, users1)
        | .ok users2 => (.error .accountLocked, users2)
      | none => (.ok (), users1)
    else (.ok (), users1)

/-- Result shape of AuthService.loginUser / registerUser. -/
structure LoginResult where
  user : AuthUserView
  tokens : AuthTokens
  requiresOnboarding : Bool
  onboardingStep : Nat
deriving DecidableEq, Repr

/-- AuthService.loginUser.  `compare password hash` is the injected
PasswordService.compare.  The Redis rate state is read-only in this flow
(exactly as in the source, which consults the Lockout Guard but never records
into it); the relational store is threaded and returned.  Welcome-email
dispatch is fire-and-forget and does not affect the outcome. -/
def AuthService.loginUser (compare : String → String → Bool) (cfg : TokenConfig)
    (now : Nat) (sidA sidR : String) (users : UserStore) (rate : RateState)
    (email password : String) : Except AuthError LoginResult × UserStore :=
  match UserRepository.findByEmail users email with
  | .error e => (.error e, users)
  | .ok none => (.error (.authentication none), users)
  | .ok (some user) =>
    if user.authProvider = .googleProvider then
      (.error (.authentication (some MSG_GOOGLE_ACCOUNT_REQUIRED)), users)
    else
      match AuthService.checkAccountStatus user now with
      | .error e => (.error e, users)
      | .ok _ =>
        match user.password with
        | none => (.error (.authentication none), users)
        | some storedHash =>
          if compare password storedHash then
            match AuthService.generateTokens cfg now sidA sidR user.id user.email with
            | .error e => (.error e, users)
            | .ok tokens =>
              match UserRepository.update users user.id (fun u =>
                { u with lastLoginAt := some now, loginAttempts := 0, lockedUntil := none,
                         refreshToken := some tokens.refreshToken, hasLoggedIn := true }) with
              | .error e => (.error e, users)
              | .ok users1 =>
                (.ok { user := AuthService.sanitizeUser user, tokens := tokens,
                       requiresOnboarding := !user.hasCompletedOnboarding,
                       onboardingStep := user.onboardingStep }, users1)
          else
            match AuthService.handleFailedLogin users rate now user.id with
            | (.error e, users1) => (.error e, users1)
            | (.ok _, users1) => (.error (.authentication none), users1)

/-- `RegisterRequest` of auth.types.ts. -/
structure RegisterRequest where
  email : String
  password : String
  firstName : Option String := none
  lastName : Option String := none
deriving DecidableEq, Repr

/-- The post-registration bookkeeping update (refresh token + lastLogin). -/
def registerBookkeepingFields (tokens : AuthTokens) (now : Nat) (u : UserRec) : UserRec :=
  { u with refreshToken := some tokens.refreshToken, lastLoginAt := some now }

/-- AuthService.registerUser.  `hashPw` is the injected
PasswordService.hash; `newId` is the id the store generates for the inserted
row; `freshVerifTok` is the raw random verification token
(tokenService.generateRandomToken).  The verification email is
fire-and-forget. -/
def AuthService.registerUser (hashPw : String → String) (cfg : TokenConfig)
    (now : Nat) (sidA sidR : String) (newId freshVerifTok : String)
    (users : UserStore) (data : RegisterRequest) :
    Except AuthError LoginResult × UserStore :=
  match UserRepository.findByEmail users data.email with
  | .error e => (.error e, users)
  | .ok (some _) => (.error .conflict, users)
  | .ok none =>
    let hashedPassword := hashPw data.password
    let hashedToken := hashToken freshVerifTok
    let userData : UserRec :=
      { id := newId
        email := data.email
        firstName := data.firstName.getD ""
        lastName := data.lastName.getD ""
        password := some hashedPassword
        authProvider := .localProvider
        emailVerificationToken := some hashedToken
        emailVerificationExpires := some (AuthService.getTokenExpiry now .verification)
        onboardingStep := 0 }
    match UserRepository.create users userData with
    | .error e => (.error e, users)
    | .ok (user, users1) =>
      match AuthService.generateTokens cfg now sidA sidR user.id user.email with
      | .error e => (.error e, users1)
      | .ok tokens =>
        match UserRepository.update users1 user.id (registerBookkeepingFields tokens now) with
        | .error e => (.error e, users1)
        | .ok users2 =>
          (.ok { user := AuthService.sanitizeUser user, tokens := tokens,
                 requiresOnboarding := !user.hasCompletedOnboarding,
                 onboardingStep := user.onboardingStep }, users2)

/-- AuthService.findUserByToken: hashes the input and resolves it via the
matching repository lookup (whose query already requires the expiry to be in
the future); the separate service-level expiry re-check then raises
TokenExpiredError. -/
def AuthService.findUserByToken (users : UserStore) (now : Nat) (token : String)
    (type_ : TokenType) : Except AuthError UserRec :=
  if token = "" then .error .invalidToken
  else
    let hashedToken := hashToken token
    let found :=
      match type_ with
      | .verification => UserRepository.findByEmailVerificationToken users now hashedToken
      | .reset => UserRepository.findByPasswordResetToken users now hashedToken
    match found with
    | none => .error .invalidToken
    | some user =>
      let expirationField :=
        match type_ with
        | .verification => user.emailVerificationExpires
        | .reset => user.passwordResetExpires
      match expirationField with
      | none => .error .tokenExpired
      | some t => if t < now then .error .tokenExpired else .ok user

/-- AuthService.forgotPassword.  `freshTok` is the raw random reset token;
`sendOutcome` is the awaited reset-email dispatch.  The lookup miss returns
success; the whole generate/persist/send block is inside a try whose catch
only logs, so every internal failure also returns success. -/
def AuthService.forgotPassword (now : Nat) (freshTok : String)
    (sendOutcome : Except Unit Unit) (users : UserStore) (email : String) :
    Except AuthError Unit × UserStore :=
  match UserRepository.findByEmail users email with
  | .error e => (.error e, users)
  | .ok none => (.ok (), users)
  | .ok (some user) =>
    let hashedToken := hashToken freshTok
    match UserRepository.update users user.id (fun u =>
      { u with passwordResetToken := some hashedToken,
               passwordResetExpires := some (AuthService.getTokenExpiry now .reset) }) with
    | .error _ => (.ok (), users)
    | .ok users1 =>
      match sendOutcome with
      | .error _ => (.ok (), users1)
      | .ok _ => (.ok (), users1)

/-- AuthService.resetPassword: resolves the user by reset-token hash and
expiry, hashes the new password, persists it, clears the reset fields, stamps
`passwordChangedAt` and resets the lockout state.  The confirmation email is
fire-and-forget.  Note: no `authProvider` check anywhere on this path. -/
def AuthService.resetPassword (hashPw : String → String) (now : Nat)
    (users : UserStore) (token newPassword : String) :
    Except AuthError Unit × UserStore :=
  match AuthService.findUserByToken users now token .reset with
  | .error e => (.error e, users)
  | .ok user =>
    let hashedPassword := hashPw newPassword
    match UserRepository.update users user.id (fun u =>
      { u with password := some hashedPassword,
               passwordResetToken := none,
               passwordResetExpires := none,
               passwordChangedAt := some now,
               loginAttempts := 0,
               lockedUntil := none }) with
    | .error e => (.error e, users)
    | .ok users1 => (.ok (), users1)

/-- AuthService.refreshToken: the verifyRefreshToken call sits in a try whose
catch throws InvalidTokenError — EVERY verification failure, the expiry
included, is collapsed to InvalidTokenError.  Then the identity is resolved by
the stored refresh-token value and must match the decoded id. -/
def AuthService.refreshToken (cfg : TokenConfig) (now : Nat) (sidA sidR : String)
    (users : UserStore) (refreshToken : Option Jwt) :
    Except AuthError AuthTokens × UserStore :=
  match refreshToken with
  | none => (.error .invalidToken, users)
  | some tok =>
    match TokenService.verifyRefreshToken cfg now tok with
    | .error _ => (.error .invalidToken, users)
    | .ok decoded =>
      match UserRepository.findByRefreshToken users tok with
      | none => (.error .invalidToken, users)
      | some user =>
        if user.id ≠ decoded.userId then (.error .invalidToken, users)
        else
          match AuthService.generateTokens cfg now sidA sidR user.id user.email with
          | .error e => (.error e, users)
          | .ok tokens =>
            match UserRepository.update users user.id (fun u =>
              { u with refreshToken := some tokens.refreshToken }) with
            | .error e => (.error e, users)
            | .ok users1 => (.ok tokens, users1)

/-- The verification-token rotation written by resendVerificationEmail. -/
def rotateVerificationFields (now : Nat) (freshTok : String) (u : UserRec) : UserRec :=
  { u with emailVerificationToken := some (hashToken freshTok),
           emailVerificationExpires := some (AuthService.getTokenExpiry now .verification) }

/-- AuthService.resendVerificationEmail: NotFound for an unknown id,
AuthenticationError when already verified, RateLimitError from the resend
cooldown — all three checks precede the token rotation; the verification
email itself IS awaited here, so its failure (modelled `.emailSend`)
propagates, but only after the update. -/
def AuthService.resendVerificationEmail (now : Nat) (freshTok : String)
    (sendOutcome : Except Unit Unit) (users : UserStore) (resend : ResendState)
    (userId : String) : Except AuthError Unit × UserStore × ResendState :=
  match UserRepository.findById users userId with
  | .error e => (.error e, users, resend)
  | .ok none => (.error .notFound, users, resend)
  | .ok (some user) =>
    if user.isEmailVerified then
      (.error (.authentication (some MSG_EMAIL_ALREADY_VERIFIED)), users, resend)
    else
      match RateLimiterService.checkEmailResend resend now userId with
      | (rateLimitCheck, resend1) =>
        if rateLimitCheck.canResend = false then (.error .rateLimit, users, resend1)
        else
          match UserRepository.update users userId (rotateVerificationFields now freshTok) with
          | .error e => (.error e, users, resend1)
          | .ok users1 =>
            match sendOutcome with
            | .error _ => (.error .emailSend, users1, resend1)
            | .ok _ => (.ok (), users1, resend1)

/-! ## OAuthService (oauth.service.ts) -/

/-- The `GoogleProfile` produced by OAuthService.processGoogleCode (the
code-for-token exchange and id-token verification against Google are external
network calls; a flow is analysed from the verified profile they yield). -/
structure GoogleProfile where
  id : String
  email : String
  emailVerified : Bool
  name : String
  firstName : String
  lastName : String
  picture : Option String := none
deriving DecidableEq, Repr

/-- The googleId backfill update of findOrCreateGoogleUser. -/
def attachGoogleId (gid : String) (u : UserRec) : UserRec :=
  { u with googleId := some gid }

/-- OAuthService.findOrCreateGoogleUser: looks the identity up by the profile
email; creates a google-provider, passwordless identity when absent
(`isNewUser = true`); backfills `googleId` only when the existing identity
already has `authProvider = 'google'`; in every existing-identity case returns
the found record with `isNewUser = false` — there is no rejection path. -/
def OAuthService.findOrCreateGoogleUser (users : UserStore) (newId : String)
    (profile : GoogleProfile) : Except AuthError (UserRec × Bool) × UserStore :=
  match UserRepository.findByEmail users profile.email with
  | .error e => (.error e, users)
  | .ok none =>
    let userData : UserRec :=
      { id := newId
        email := profile.email
        firstName := profile.firstName
        lastName := profile.lastName
        authProvider := .googleProvider
        googleId := some profile.id
        isEmailVerified := profile.emailVerified
        profileImageUrl := profile.picture
        onboardingStep := 0 }
    match UserRepository.create users userData with
    | .error e => (.error e, users)
    | .ok (user, users1) => (.ok (user, true), users1)
  | .ok (some user) =>
    if user.googleId = none ∧ user.authProvider = .googleProvider then
      match UserRepository.update users user.id (attachGoogleId profile.id) with
      | .error e => (.error e, users)
      | .ok users1 => (.ok (user, false), users1)
    else
      (.ok (user, false), users)

/-- Result shape of AuthService.authenticateWithGoogle. -/
structure GoogleLoginResult where
  user : AuthUserView
  tokens : AuthTokens
  requiresOnboarding : Bool
  onboardingStep : Nat
  isNewUser : Bool
deriving DecidableEq, Repr

/-- The login bookkeeping update of authenticateWithGoogle. -/
def googleLoginFields (tokens : AuthTokens) (now : Nat) (u : UserRec) : UserRec :=
  { u with refreshToken := some tokens.refreshToken, lastLoginAt := some now,
           hasLoggedIn := true }

/-- AuthService.authenticateWithGoogle, from the verified profile: finds or
creates the identity and then — unconditionally, new and existing identities
alike — attempts to generate a token pair and update the login bookkeeping.
The token generation fails with jsonwebtoken's sign rejection (payload `exp`
plus the `expiresIn` option), which propagates out before the bookkeeping
update. -/
def AuthService.authenticateWithGoogle (cfg : TokenConfig) (now : Nat)
    (sidA sidR newId : String) (users : UserStore) (profile : GoogleProfile) :
    Except AuthError GoogleLoginResult × UserStore :=
  match OAuthService.findOrCreateGoogleUser users newId profile with
  | (.error e, users1) => (.error e, users1)
  | (.ok (user, isNewUser), users1) =>
    match AuthService.generateTokens cfg now sidA sidR user.id user.email with
    | .error e => (.error e, users1)
    | .ok tokens =>
      match UserRepository.update users1 user.id (googleLoginFields tokens now) with
      | .error e => (.error e, users1)
      | .ok users2 =>
        (.ok { user := AuthService.sanitizeUser user, tokens := tokens,
               requiresOnboarding := !user.hasCompletedOnboarding,
               onboardingStep := user.onboardingStep, isNewUser := isNewUser }, users2)

/-- The invariant of §3 of the specification: exactly one of
{password hash present, authProvider = google}. -/
def exactlyOnePasswordOrGoogle (u : UserRec) : Bool :=
  xor u.password.isSome (u.authProvider = .googleProvider)

/-! ## Shared fixtures and result inspectors for the claim theorems -/

/-- Error of an `Except` outcome (`none` on success). -/
def resultErr {α : Type} (r : Except AuthError α) : Option AuthError :=
  match r with
  | .error e => some e
  | .ok _ => none

/-- Concrete TokenService configuration used by concrete runs. -/
def cfgDemo : TokenConfig :=
  { jwtAccessSecret := "access-secret"
    jwtRefreshSecret := "refresh-secret"
    jwtAccessExpiry := "15m"
    jwtRefreshExpiry := "7d"
    issuer := "kokoru" }

/-- Concrete model of the injected argon2 hash (injective tagging). -/
def demoHashPw (password : String) : String :=
  "argon2:" ++ password

/-- Concrete model of the injected PasswordService.compare. -/
def demoCompare (password hash : String) : Bool :=
  decide (hash = "argon2:" ++ password)

/-! ## Concrete fixtures for the claim analyses -/

/-- A structurally valid, correctly signed but expired refresh token for the
C6 counterexample. -/
def c6ExpiredToken : Jwt :=
  { raw := "jwt.refresh.s1"
    userId := "00000000-0000-4000-8000-000000000001"
    email := ""
    sessionId := "s1"
    tokenType := "refresh"
    iat := 0
    exp := 100
    issuer := "kokoru"
    audience := none
    secret := "refresh-secret" }

/-- The identity holding that refresh token in its single slot. -/
def c6Users : UserStore :=
  [{ id := "00000000-0000-4000-8000-000000000001", email := "a@b.com",
     firstName := "A", lastName := "B", password := some "argon2:correct",
     refreshToken := some c6ExpiredToken }]

/-- The existing identity of the C7/C10 concrete runs. -/
def demoLocalUser : UserRec :=
  { id := "00000000-0000-4000-8000-000000000001", email := "a@b.com",
    firstName := "A", lastName := "B", password := some "argon2:correct" }

/-- The error kinds of the three pre-update checks of
resendVerificationEmail. -/
def isPrecheckError : AuthError → Bool
  | .notFound => true
  | .authentication _ => true
  | .rateLimit => true
  | _ => false

/-- An already-verified identity for the C10 witness run. -/
def demoVerifiedUser : UserRec :=
  { id := "00000000-0000-4000-8000-000000000002", email := "v@b.com",
    firstName := "V", lastName := "B", password := some "argon2:pw",
    isEmailVerified := true }

/-- Fold of recordFailedLogin over a list of failure times (first element
first). -/
def failuresAt (userId : String) (times : List Nat) : RateState :=
  times.foldl (fun st t => RateLimiterService.recordFailedLogin st t userId) []

/-- The Google profile whose verified email collides with the local identity
`demoLocalUser`. -/
def c1Profile : GoogleProfile :=
  { id := "google-sub-1", email := "a@b.com", emailVerified := true,
    name := "A B", firstName := "A", lastName := "B" }

/-- The C1 concrete run: Google login for a profile whose email belongs to a
local-provider identity. -/
def c1Run : Except AuthError GoogleLoginResult × UserStore :=
  AuthService.authenticateWithGoogle cfgDemo 1000 "sA" "sR"
    "00000000-0000-4000-8000-000000000009" [demoLocalUser] c1Profile

/-- Whether an error is an AuthenticationError of any message (the kind a
"use password login" rejection would be). -/
def isAuthenticationError : AuthError → Bool
  | .authentication _ => true
  | _ => false

/-- One wrong-password login attempt against the demo local identity (the
Redis rate state is the empty one and, since loginUser never writes it, stays
empty across attempts). -/
def c2Step (us : UserStore) : Except AuthError LoginResult × UserStore :=
  AuthService.loginUser demoCompare cfgDemo 1000 "sA" "sR" us [] "a@b.com" "wrongpass"

/-- Store after failed attempt 1. -/
def c2Users1 : UserStore := (c2Step [demoLocalUser]).2

/-- Store after failed attempt 2. -/
def c2Users2 : UserStore := (c2Step c2Users1).2

/-- Store after failed attempt 3. -/
def c2Users3 : UserStore := (c2Step c2Users2).2

/-- Store after failed attempt 4. -/
def c2Users4 : UserStore := (c2Step c2Users3).2

/-- Store after failed attempt 5. -/
def c2Users5 : UserStore := (c2Step c2Users4).2

/-- A google-provider identity (no password) with a known email. -/
def c4GoogleUser : UserRec :=
  { id := "00000000-0000-4000-8000-000000000003", email := "g@x.com",
    firstName := "G", lastName := "U", password := none,
    authProvider := .googleProvider, googleId := some "google-sub-2",
    isEmailVerified := true }

/-- Store after forgotPassword planted a reset token on the google
identity (the flow never checks `authProvider`). -/
def c4AfterForgot : UserStore :=
  (AuthService.forgotPassword 1000 "rtok" (.ok ()) [c4GoogleUser] "g@x.com").2

/-- Outcome of redeeming that reset token with a new password. -/
def c4AfterReset : Except AuthError Unit × UserStore :=
  AuthService.resetPassword demoHashPw 1010 c4AfterForgot "rtok" "NewPass1"

/-! ## C8 — generateTemporaryPassword guarantees (code bug)

The four post-adjustments each rewrite the same last position of the
password, so a later fix-up overwrites an earlier one: an all-digit draw
first gets its last character turned into `A` (no uppercase present) and
then that same `A` turned into `a` (no lowercase present), leaving a result
with no uppercase letter at all.  Byte 52 indexes `0` in the 70-character
charset. -/

/-- C8: the claim "every string returned by generateTemporaryPassword ...
contains at least one uppercase letter ... for every possible outcome of the
underlying random bytes" fails on the code: the draw of twelve bytes equal to
52 yields the all-digit candidate `000000000000`, whose fix-ups produce
`00000000000a` — length 12, but with no uppercase character. -/
theorem c8_temporary_password_missing_uppercase :
    PasswordService.generateTemporaryPassword false (List.replicate 12 52) = "00000000000a"
    ∧ hasUppercase (PasswordService.generateTemporaryPassword false (List.replicate 12 52)) = false
    ∧ (PasswordService.generateTemporaryPassword false (List.replicate 12 52)).length = 12 := by
  decide

/-! ## C9 — PasswordService.verify never throws -/

/-- C9: for every argon2 collaborator behaviour and every (hash, password)
input — the empty strings and rejecting (malformed-hash) verifications
included — PasswordService.verify returns a boolean (`Except.ok`), and a
rejecting verification yields `false` rather than an error. -/
theorem c9_verify_never_throws
    (argonVerify : String → String → Except Unit Bool)
    (argonNeedsRehash : String → Except Unit Bool)
    (hash password : String) :
    (∃ b, PasswordService.verify argonVerify argonNeedsRehash hash password = .ok b)
    ∧ (argonVerify hash password = .error () →
        PasswordService.verify argonVerify argonNeedsRehash hash password = .ok false) := by
  constructor
  · unfold PasswordService.verify
    by_cases hempty : hash = "" ∨ password = ""
    · exact ⟨false, by rw [if_pos hempty]⟩
    · rw [if_neg hempty]
      cases hv : argonVerify hash password with
      | error e => exact ⟨false, rfl⟩
      | ok b =>
        cases b with
        | false => exact ⟨false, rfl⟩
        | true =>
          cases hr : argonNeedsRehash hash with
          | error e => exact ⟨false, rfl⟩
          | ok c => exact ⟨true, rfl⟩
  · intro hcontra
    unfold PasswordService.verify
    by_cases hempty : hash = "" ∨ password = ""
    · rw [if_pos hempty]
    · rw [if_neg hempty, hcontra]

/-- Witness for C9: a rejecting argon2 (as on a malformed hash) makes verify
return `ok false`. -/
theorem c9_verify_never_throws_witness :
    PasswordService.verify (fun _ _ => .error ()) (fun _ => .ok false)
      "not-an-argon2-encoding" "password" = .ok false :=
  (c9_verify_never_throws (fun _ _ => .error ()) (fun _ => .ok false)
    "not-an-argon2-encoding" "password").2 rfl

/-! ## C3 — blacklisted access tokens are not rejected before expiry -/

/-- C3: for every access token with valid signature, issuer and audience that
is not past expiry, verifyAccessToken returns the decoded payload even after
the token was revoked via revokeToken; the blacklist hit is only logged
(second component `true`), never turned into a rejection. -/
theorem c3_blacklisted_token_still_verifies (cfg : TokenConfig)
    (blacklist : List String) (now : Nat) (token : Jwt)
    (hsig : token.secret = cfg.jwtAccessSecret)
    (hiss : token.issuer = cfg.issuer)
    (haud : token.audience = some "kokoru-garden")
    (hexp : now < token.exp) :
    TokenService.verifyAccessToken cfg (TokenService.revokeToken now blacklist token) now token
      = (.ok { userId := token.userId, email := token.email,
               iat := token.iat, exp := token.exp }, true) := by
  have hrevoke : TokenService.revokeToken now blacklist token
      = hashToken token.raw :: blacklist := by
    unfold TokenService.revokeToken
    rw [if_neg (by omega)]
  have hhit : TokenService.isTokenBlacklisted
      (TokenService.revokeToken now blacklist token) token = true := by
    rw [hrevoke]
    unfold TokenService.isTokenBlacklisted
    simp
  unfold TokenService.verifyAccessToken jwtVerify
  rw [hsig, haud, hiss, hhit]
  simp [Nat.not_le.mpr hexp]

/-- Witness for C3: a concrete well-signed unexpired token revoked into the
blacklist still verifies, with the hit only logged. -/
theorem c3_blacklisted_token_still_verifies_witness :
    TokenService.verifyAccessToken cfgDemo
      (TokenService.revokeToken 1000 []
        { raw := "jwt.access.sX", userId := "00000000-0000-4000-8000-000000000001",
          email := "a@b.com", sessionId := "sX", tokenType := "access",
          iat := 900, exp := 1800, issuer := "kokoru",
          audience := some "kokoru-garden", secret := "access-secret" })
      1000
      { raw := "jwt.access.sX", userId := "00000000-0000-4000-8000-000000000001",
        email := "a@b.com", sessionId := "sX", tokenType := "access",
        iat := 900, exp := 1800, issuer := "kokoru",
        audience := some "kokoru-garden", secret := "access-secret" }
      = (.ok { userId := "00000000-0000-4000-8000-000000000001", email := "a@b.com",
               iat := 900, exp := 1800 }, true) :=
  c3_blacklisted_token_still_verifies cfgDemo [] 1000 _
    (by decide) (by decide) (by decide) (by decide)

/-! ## C6 — the refresh operation collapses expiry to InvalidTokenError -/

/-- C6 counterexample: at time 200 the stored refresh token (exp = 100) is
correctly signed but past expiry, yet the refresh operation fails with
InvalidTokenError, not TokenExpiredError — AuthService.refreshToken catches
every verification failure and rethrows InvalidTokenError. -/
theorem c6_refresh_expired_counterexample :
    resultErr (AuthService.refreshToken cfgDemo 200 "sA" "sR" c6Users (some c6ExpiredToken)).1
      = some .invalidToken
    ∧ resultErr (AuthService.refreshToken cfgDemo 200 "sA" "sR" c6Users (some c6ExpiredToken)).1
      ≠ some .tokenExpired
    ∧ resultErr (TokenService.verifyRefreshToken cfgDemo 200 c6ExpiredToken)
      = some .tokenExpired := by
  decide

/-- C6 amended: the token engine does distinguish — verifyRefreshToken fails
with TokenExpiredError on a correctly signed expired token — but the refresh
operation collapses every verification failure, expiry included, to
InvalidTokenError. -/
theorem c6_refresh_expired_amended (cfg : TokenConfig) (now : Nat)
    (sidA sidR : String) (users : UserStore) (token : Jwt)
    (hsig : token.secret = cfg.jwtRefreshSecret)
    (hiss : token.issuer = cfg.issuer)
    (hexp : token.exp ≤ now) :
    TokenService.verifyRefreshToken cfg now token = .error .tokenExpired
    ∧ (AuthService.refreshToken cfg now sidA sidR users (some token))
        = (.error .invalidToken, users) := by
  have hverify : TokenService.verifyRefreshToken cfg now token = .error .tokenExpired := by
    unfold TokenService.verifyRefreshToken jwtVerify
    rw [hsig]
    simp [hexp]
  refine ⟨hverify, ?_⟩
  unfold AuthService.refreshToken
  simp only [hverify]

/-- Witness for C6 amended, at the counterexample's own token and store. -/
theorem c6_refresh_expired_amended_witness :
    TokenService.verifyRefreshToken cfgDemo 200 c6ExpiredToken = .error .tokenExpired
    ∧ (AuthService.refreshToken cfgDemo 200 "sA" "sR" c6Users (some c6ExpiredToken))
        = (.error .invalidToken, c6Users) :=
  c6_refresh_expired_amended cfgDemo 200 "sA" "sR" c6Users c6ExpiredToken
    (by decide) (by decide) (by decide)

/-! ## C7 — forgotPassword is uniform in email existence -/

/-- C7: for a pair of (well-formed) email inputs, one resolving to an
existing identity and one unknown, forgotPassword returns the same success
in both runs, whatever the outcome of the awaited reset-email dispatch (and
of the token-persisting update, whose failure the catch also swallows). -/
theorem c7_forgot_password_uniform (now1 now2 : Nat) (tok1 tok2 : String)
    (send1 send2 : Except Unit Unit) (users : UserStore) (e1 e2 : String) (u : UserRec)
    (hexists : UserRepository.findByEmail users e1 = .ok (some u))
    (hunknown : UserRepository.findByEmail users e2 = .ok none) :
    (AuthService.forgotPassword now1 tok1 send1 users e1).1 = .ok ()
    ∧ (AuthService.forgotPassword now2 tok2 send2 users e2).1 = .ok ()
    ∧ (AuthService.forgotPassword now1 tok1 send1 users e1).1
        = (AuthService.forgotPassword now2 tok2 send2 users e2).1 := by
  have h1 : (AuthService.forgotPassword now1 tok1 send1 users e1).1 = .ok () := by
    unfold AuthService.forgotPassword
    simp only [hexists]
    split
    · rfl
    · split <;> rfl
  have h2 : (AuthService.forgotPassword now2 tok2 send2 users e2).1 = .ok () := by
    unfold AuthService.forgotPassword
    simp only [hunknown]
  exact ⟨h1, h2, by rw [h1, h2]⟩

/-- Witness for C7: a real account and an unknown address both get success,
even when the reset email dispatch fails for the real one. -/
theorem c7_forgot_password_uniform_witness :
    (AuthService.forgotPassword 1000 "tok1" (.error ()) [demoLocalUser] "a@b.com").1 = .ok ()
    ∧ (AuthService.forgotPassword 1000 "tok2" (.ok ()) [demoLocalUser] "unknown@x.com").1 = .ok ()
    ∧ (AuthService.forgotPassword 1000 "tok1" (.error ()) [demoLocalUser] "a@b.com").1
        = (AuthService.forgotPassword 1000 "tok2" (.ok ()) [demoLocalUser] "unknown@x.com").1 :=
  c7_forgot_password_uniform 1000 1000 "tok1" "tok2" (.error ()) (.ok ())
    [demoLocalUser] "a@b.com" "unknown@x.com" demoLocalUser (by decide) (by decide)

/-! ## C10 — resendVerificationEmail pre-check failures leave the identity unchanged -/

/-- C10: whenever resendVerificationEmail fails with NotFoundError,
AuthenticationError (already verified) or RateLimitError, the user store is
returned unchanged — all three checks precede the verification-token
rotation, so `emailVerificationToken`/`emailVerificationExpires` keep their
prior values. -/
theorem c10_resend_precheck_leaves_identity (now : Nat) (freshTok : String)
    (sendOutcome : Except Unit Unit) (users : UserStore) (resend : ResendState)
    (userId : String) (e : AuthError)
    (herr : (AuthService.resendVerificationEmail now freshTok sendOutcome users resend userId).1
      = .error e)
    (hkind : isPrecheckError e = true) :
    (AuthService.resendVerificationEmail now freshTok sendOutcome users resend userId).2.1
      = users := by
  unfold AuthService.resendVerificationEmail at herr ⊢
  cases hfind : UserRepository.findById users userId with
  | error e1 => simp [hfind]
  | ok o =>
    cases o with
    | none => simp [hfind]
    | some user =>
      simp only [hfind] at herr ⊢
      cases hver : user.isEmailVerified with
      | true => simp [hver]
      | false =>
        simp only [hver] at herr ⊢
        cases hchk : RateLimiterService.checkEmailResend resend now userId with
        | mk chk resend1 =>
          simp only [hchk] at herr ⊢
          cases hcan : chk.canResend with
          | false => simp [hcan]
          | true =>
            simp only [hcan] at herr ⊢
            cases hupd : UserRepository.update users userId
                (rotateVerificationFields now freshTok) with
            | error e2 => simp [hupd]
            | ok users1 =>
              simp only [hupd] at herr ⊢
              cases sendOutcome with
              | error u2 =>
                simp at herr
                rw [← herr] at hkind
                simp [isPrecheckError] at hkind
              | ok u2 => simp at herr

/-- Witness for C10: resending for an already-verified identity fails with
AuthenticationError and the store comes back unchanged. -/
theorem c10_resend_precheck_leaves_identity_witness :
    (AuthService.resendVerificationEmail 1000 "tok" (.ok ()) [demoVerifiedUser] []
      "00000000-0000-4000-8000-000000000002").2.1 = [demoVerifiedUser] :=
  c10_resend_precheck_leaves_identity 1000 "tok" (.ok ()) [demoVerifiedUser] []
    "00000000-0000-4000-8000-000000000002"
    (.authentication (some MSG_EMAIL_ALREADY_VERIFIED)) (by decide) (by decide)

/-! ## C5 — monotonic lockout at the Rate Limiter level -/

/-- The first recorded failure creates the counter at 1 and anchors the
window TTL to it. -/
theorem recordFailedLogin_first (userId : String) (t0 : Nat) :
    RateLimiterService.recordFailedLogin [] t0 userId
      = [("login_attempts:" ++ userId,
          { count := 1, expiresAt := some (t0 + LOGIN_WINDOW) })] := by
  unfold RateLimiterService.recordFailedLogin
  simp [redisGetCounter, rateLookup, rateSet]

/-- A later failure within the window only increments the count: the window
TTL (absolute expiry) is untouched because the `attempts = 1` guard fails. -/
theorem recordFailedLogin_next (userId : String) (t expiry n : Nat)
    (hlive : t < expiry) (hn : 0 < n) :
    RateLimiterService.recordFailedLogin
      [("login_attempts:" ++ userId, { count := n, expiresAt := some expiry })] t userId
      = [("login_attempts:" ++ userId,
          { count := n + 1, expiresAt := some expiry })] := by
  unfold RateLimiterService.recordFailedLogin
  simp only [redisGetCounter, rateLookup, if_pos rfl, hlive, if_true]
  have hne : ¬ (n + 1 = 1) := by omega
  simp [rateSet, hne]

/-- Once the counter shows `n ≥ MAX_LOGIN_ATTEMPTS` failures and the key is
still live, checkLoginAttempts refuses with `lockedUntil` equal to the
absolute window expiry (`now + ttl` with `ttl = expiry - now`). -/
theorem checkLoginAttempts_locked (userId : String) (tq expiry n : Nat)
    (hmax : MAX_LOGIN_ATTEMPTS ≤ n) (hlive : tq < expiry) :
    RateLimiterService.checkLoginAttempts
      [("login_attempts:" ++ userId, { count := n, expiresAt := some expiry })] tq userId
      = { canAttempt := false, attemptsRemaining := 0, lockedUntil := some expiry } := by
  unfold RateLimiterService.checkLoginAttempts
  simp only [redisGetCounter, rateLookup, if_pos rfl, hlive, if_true, redisTTL]
  have hcond : MAX_LOGIN_ATTEMPTS ≤ n ∧ (0 : Int) < (expiry : Int) - (tq : Int) := by
    constructor
    · exact hmax
    · omega
  rw [if_pos hcond]
  have : tq + ((expiry : Int) - (tq : Int)).toNat = expiry := by omega
  rw [this]

/-- C5: starting from a clean counter, five recordFailedLogin calls whose
later four fall inside the window anchored at the first make
checkLoginAttempts (queried while the window is live) report
`canAttempt = false`, `attemptsRemaining = 0` and a `lockedUntil` equal to the
window anchor `t0 + LOGIN_WINDOW` — strictly in the future of the query.  A
sixth failure inside the window does not move `lockedUntil` beyond that
anchor, because the TTL is set only on the first increment. -/
theorem c5_lockout_after_five_failures (userId : String)
    (t0 t1 t2 t3 t4 t5 tq tq6 : Nat)
    (h1 : t1 < t0 + LOGIN_WINDOW) (h2 : t2 < t0 + LOGIN_WINDOW)
    (h3 : t3 < t0 + LOGIN_WINDOW) (h4 : t4 < t0 + LOGIN_WINDOW)
    (h5 : t5 < t0 + LOGIN_WINDOW)
    (hq : tq < t0 + LOGIN_WINDOW) (hq6 : tq6 < t0 + LOGIN_WINDOW) :
    RateLimiterService.checkLoginAttempts (failuresAt userId [t0, t1, t2, t3, t4]) tq userId
      = { canAttempt := false, attemptsRemaining := 0,
          lockedUntil := some (t0 + LOGIN_WINDOW) }
    ∧ tq < t0 + LOGIN_WINDOW
    ∧ RateLimiterService.checkLoginAttempts
        (RateLimiterService.recordFailedLogin (failuresAt userId [t0, t1, t2, t3, t4]) t5 userId)
        tq6 userId
      = { canAttempt := false, attemptsRemaining := 0,
          lockedUntil := some (t0 + LOGIN_WINDOW) } := by
  have hst : failuresAt userId [t0, t1, t2, t3, t4]
      = [("login_attempts:" ++ userId,
          { count := 5, expiresAt := some (t0 + LOGIN_WINDOW) })] := by
    unfold failuresAt
    simp only [List.foldl_cons, List.foldl_nil]
    rw [recordFailedLogin_first,
        recordFailedLogin_next userId t1 _ 1 h1 (by omega),
        recordFailedLogin_next userId t2 _ 2 h2 (by omega),
        recordFailedLogin_next userId t3 _ 3 h3 (by omega),
        recordFailedLogin_next userId t4 _ 4 h4 (by omega)]
  refine ⟨?_, hq, ?_⟩
  · rw [hst]
    exact checkLoginAttempts_locked userId tq _ 5 (by decide) hq
  · rw [hst, recordFailedLogin_next userId t5 _ 5 h5 (by omega)]
    exact checkLoginAttempts_locked userId tq6 _ 6 (by decide) hq6

/-- Witness for C5 at concrete times: failures at 0,10,20,30,40, a query at
100, a sixth failure at 50 and a second query at 200. -/
theorem c5_lockout_after_five_failures_witness :
    RateLimiterService.checkLoginAttempts (failuresAt "u1" [0, 10, 20, 30, 40]) 100 "u1"
      = { canAttempt := false, attemptsRemaining := 0, lockedUntil := some (0 + LOGIN_WINDOW) }
    ∧ 100 < 0 + LOGIN_WINDOW
    ∧ RateLimiterService.checkLoginAttempts
        (RateLimiterService.recordFailedLogin (failuresAt "u1" [0, 10, 20, 30, 40]) 50 "u1")
        200 "u1"
      = { canAttempt := false, attemptsRemaining := 0, lockedUntil := some (0 + LOGIN_WINDOW) } :=
  c5_lockout_after_five_failures "u1" 0 10 20 30 40 50 100 200
    (by decide) (by decide) (by decide) (by decide) (by decide) (by decide) (by decide)

/-! ## C1 — Google login with a local-provider email collision -/

/-- Membership characterization of a successful UserRepository.update: every
resulting record is an original one, possibly with the update applied. -/
theorem mem_update_ok (users users' : UserStore) (id : String) (f : UserRec → UserRec)
    (hupd : UserRepository.update users id f = .ok users') :
    ∀ v ∈ users', ∃ w ∈ users, v = w ∨ v = f w := by
  intro v hv
  unfold UserRepository.update at hupd
  cases hvid : validateUserId id with
  | error e => rw [hvid] at hupd; exact absurd hupd (by simp)
  | ok vid =>
    rw [hvid] at hupd
    simp only [Except.ok.injEq] at hupd
    subst hupd
    rcases List.mem_map.mp hv with ⟨w, hw, hwv⟩
    refine ⟨w, hw, ?_⟩
    by_cases hid : w.id = vid
    · right; rw [← hwv]; simp [hid]
    · left; rw [← hwv]; simp [hid]

/-- C1 counterexample: for a verified profile email matching an existing
local-provider identity, findOrCreateGoogleUser does NOT reject — it reports
success with `isNewUser = false` — and the operation's eventual failure is
jsonwebtoken's sign rejection raised inside generateTokens (payload `exp`
plus the `expiresIn` sign option), which is not an AuthenticationError and a
fortiori not a "use password login" rejection (no such message exists in the
repository); the stored identity is untouched, so nothing is merged. -/
theorem c1_google_login_local_collision_counterexample :
    OAuthService.findOrCreateGoogleUser [demoLocalUser]
        "00000000-0000-4000-8000-000000000009" c1Profile
      = (.ok (demoLocalUser, false), [demoLocalUser])
    ∧ resultErr c1Run.1 = some .jwtSignError
    ∧ Option.map isAuthenticationError (resultErr c1Run.1) = some false
    ∧ c1Run.2 = [demoLocalUser] := by
  decide

/-- C1 amended: when the profile email resolves to a local-provider identity,
findOrCreateGoogleUser returns it untouched with `isNewUser = false` (no
rejection, no merge: the googleId backfill requires `authProvider = google`);
the operation then fails inside generateTokens with jsonwebtoken's sign
rejection (payload `exp` plus the `expiresIn` option — a failure every
Google login runs into, not a collision guard), so no tokens are issued and
the store is returned unchanged; no "use password login" error exists on the
path. -/
theorem c1_google_login_local_collision_amended (cfg : TokenConfig) (now : Nat)
    (sidA sidR newId : String) (users : UserStore) (profile : GoogleProfile) (u : UserRec)
    (hfind : UserRepository.findByEmail users profile.email = .ok (some u))
    (hlocal : u.authProvider = .localProvider)
    (hid : u.id ≠ "") :
    OAuthService.findOrCreateGoogleUser users newId profile = (.ok (u, false), users)
    ∧ AuthService.generateTokens cfg now sidA sidR u.id u.email = .error .jwtSignError
    ∧ AuthService.authenticateWithGoogle cfg now sidA sidR newId users profile
        = (.error .jwtSignError, users) := by
  have hfoc : OAuthService.findOrCreateGoogleUser users newId profile
      = (.ok (u, false), users) := by
    unfold OAuthService.findOrCreateGoogleUser
    simp only [hfind]
    have hnot : ¬ (u.googleId = none ∧ u.authProvider = .googleProvider) := by
      rintro ⟨-, hgp⟩
      rw [hlocal] at hgp
      exact AuthProvider.noConfusion hgp
    rw [if_neg hnot]
  have hgen : AuthService.generateTokens cfg now sidA sidR u.id u.email
      = .error .jwtSignError := by
    unfold AuthService.generateTokens TokenService.generateAccessToken jwtSign
    simp [hid]
  refine ⟨hfoc, hgen, ?_⟩
  unfold AuthService.authenticateWithGoogle
  rw [hfoc]
  simp only [hgen]

/-- Witness for C1 amended at the concrete collision run. -/
theorem c1_google_login_local_collision_amended_witness :
    OAuthService.findOrCreateGoogleUser [demoLocalUser]
        "00000000-0000-4000-8000-000000000009" c1Profile
      = (.ok (demoLocalUser, false), [demoLocalUser])
    ∧ AuthService.generateTokens cfgDemo 1000 "sA" "sR" demoLocalUser.id demoLocalUser.email
      = .error .jwtSignError
    ∧ AuthService.authenticateWithGoogle cfgDemo 1000 "sA" "sR"
        "00000000-0000-4000-8000-000000000009" [demoLocalUser] c1Profile
      = (.error .jwtSignError, [demoLocalUser]) :=
  c1_google_login_local_collision_amended cfgDemo 1000 "sA" "sR"
    "00000000-0000-4000-8000-000000000009" [demoLocalUser] c1Profile demoLocalUser
    (by decide) (by decide) (by decide)

/-! ## C2 — the failed-login lockout never triggers (code bug)

AuthService.handleFailedLogin increments the RELATIONAL `loginAttempts`
column and then consults RateLimiterService.checkLoginAttempts, which reads
the REDIS `login_attempts:{id}` counter — but nothing in the repository ever
calls RateLimiterService.recordFailedLogin (the IRateLimiter method exists
for exactly this), so the counter the Lockout Guard consults stays 0, the
guard always answers `canAttempt = true`, and the lock/AccountLockedError
branch of handleFailedLogin is unreachable from the login flow.  This shows
in the very type of the embedded loginUser: the rate state is read-only. -/

/-- C2: five consecutive wrong-password logins for the same local identity
each raise the generic AuthenticationError — the fifth does NOT raise
AccountLockedError — and after all five the identity has `loginAttempts = 5`
but `lockedUntil` still unset, while the Lockout Guard's own counter still
reads 0 (`canAttempt = true`, `attemptsRemaining = 5`): the orchestrator
increments a counter the guard never consults. -/
theorem c2_lockout_never_triggers :
    resultErr (c2Step [demoLocalUser]).1 = some (.authentication none)
    ∧ resultErr (c2Step c2Users1).1 = some (.authentication none)
    ∧ resultErr (c2Step c2Users2).1 = some (.authentication none)
    ∧ resultErr (c2Step c2Users3).1 = some (.authentication none)
    ∧ resultErr (c2Step c2Users4).1 = some (.authentication none)
    ∧ c2Users5.map (fun u => (u.loginAttempts, u.lockedUntil)) = [(5, none)]
    ∧ RateLimiterService.checkLoginAttempts [] 1000 demoLocalUser.id
        = { canAttempt := true, attemptsRemaining := 5, lockedUntil := none } := by
  decide

/-! ## C4 — the password/google exclusivity invariant (corrected) -/

/-- C4 counterexample: the invariant holds of the initial google identity,
but forgotPassword + resetPassword (neither checks `authProvider`) attach a
password hash to it: the resulting reachable state has BOTH a present
password hash and `authProvider = google`, violating the exactly-one
invariant. -/
theorem c4_invariant_counterexample :
    exactlyOnePasswordOrGoogle c4GoogleUser = true
    ∧ resultErr c4AfterReset.1 = none
    ∧ c4AfterReset.2.map (fun u => (exactlyOnePasswordOrGoogle u, u.authProvider, u.password))
        = [(false, AuthProvider.googleProvider, some "argon2:NewPass1")] := by
  decide

/-- A field update that leaves `password` and `authProvider` untouched
preserves the invariant through a successful repository update. -/
theorem update_preserves_inv (users users' : UserStore) (id : String) (f : UserRec → UserRec)
    (hupd : UserRepository.update users id f = .ok users')
    (hf : ∀ u, exactlyOnePasswordOrGoogle u = true → exactlyOnePasswordOrGoogle (f u) = true)
    (hall : ∀ u ∈ users, exactlyOnePasswordOrGoogle u = true) :
    ∀ v ∈ users', exactlyOnePasswordOrGoogle v = true := by
  intro v hv
  rcases mem_update_ok users users' id f hupd v hv with ⟨w, hw, h | h⟩
  · rw [h]; exact hall w hw
  · rw [h]; exact hf w (hall w hw)

/-- C4 amended: the creation paths DO establish/preserve the invariant —
registration creates a local identity with a password, Google federation
creates a google identity without one and only ever backfills `googleId` —
and a google identity's password hash (even one attached by the reset flow)
is never usable for password login, because loginUser rejects
`authProvider = google` before consulting the password; but the reset flow
itself can break the exactly-one invariant (see the counterexample). -/
theorem c4_invariant_amended :
    (∀ (hashPw : String → String) (cfg : TokenConfig) (now : Nat)
       (sidA sidR newId freshTok : String) (users : UserStore) (data : RegisterRequest),
       (∀ u ∈ users, exactlyOnePasswordOrGoogle u = true) →
       ∀ v ∈ (AuthService.registerUser hashPw cfg now sidA sidR newId freshTok users data).2,
         exactlyOnePasswordOrGoogle v = true)
    ∧ (∀ (users : UserStore) (newId : String) (profile : GoogleProfile),
       (∀ u ∈ users, exactlyOnePasswordOrGoogle u = true) →
       ∀ v ∈ (OAuthService.findOrCreateGoogleUser users newId profile).2,
         exactlyOnePasswordOrGoogle v = true)
    ∧ (∀ (compare : String → String → Bool) (cfg : TokenConfig) (now : Nat)
       (sidA sidR : String) (users : UserStore) (rate : RateState)
       (email password : String) (u : UserRec),
       UserRepository.findByEmail users email = .ok (some u) →
       u.authProvider = .googleProvider →
       AuthService.loginUser compare cfg now sidA sidR users rate email password
         = (.error (.authentication (some MSG_GOOGLE_ACCOUNT_REQUIRED)), users)) := by
  refine ⟨?_, ?_, ?_⟩
  · intro hashPw cfg now sidA sidR newId freshTok users data hall v hv
    unfold AuthService.registerUser at hv
    cases hfind : UserRepository.findByEmail users data.email with
    | error e => rw [hfind] at hv; exact hall v hv
    | ok o =>
      cases o with
      | some w => rw [hfind] at hv; exact hall v hv
      | none =>
        rw [hfind] at hv
        simp only at hv
        split at hv
        · exact hall v hv
        · rename_i user users1 hcr
          unfold UserRepository.create at hcr
          cases hve : validateEmail data.email with
          | error e => rw [hve] at hcr; exact absurd hcr (by simp)
          | ok vem =>
            rw [hve] at hcr
            simp only [Except.ok.injEq, Prod.mk.injEq] at hcr
            obtain ⟨huser, husers1⟩ := hcr
            have hinvnew : ∀ w ∈ users1, exactlyOnePasswordOrGoogle w = true := by
              intro w hw
              rw [← husers1] at hw
              rcases List.mem_append.mp hw with hmem | hmem
              · exact hall w hmem
              · rw [List.mem_singleton.mp hmem]; rfl
            split at hv
            · exact hinvnew v hv
            · rename_i tokens htok
              split at hv
              · exact hinvnew v hv
              · rename_i users2 hupd
                exact update_preserves_inv users1 users2 _ _ hupd (fun u h => h) hinvnew v hv
  · intro users newId profile hall v hv
    unfold OAuthService.findOrCreateGoogleUser at hv
    split at hv
    · exact hall v hv
    · simp only at hv
      split at hv
      · exact hall v hv
      · rename_i user users1 hcr
        unfold UserRepository.create at hcr
        cases hve : validateEmail profile.email with
        | error e => rw [hve] at hcr; exact absurd hcr (by simp)
        | ok vem =>
          rw [hve] at hcr
          simp only [Except.ok.injEq, Prod.mk.injEq] at hcr
          obtain ⟨huser, husers1⟩ := hcr
          rw [← husers1] at hv
          rcases List.mem_append.mp hv with hmem | hmem
          · exact hall v hmem
          · rw [List.mem_singleton.mp hmem]; rfl
    · rename_i user hfind
      split at hv
      · split at hv
        · exact hall v hv
        · rename_i users1 hupd
          exact update_preserves_inv users users1 _ _ hupd (fun u h => h) hall v hv
      · exact hall v hv
  · intro compare cfg now sidA sidR users rate email password u hfind hgoogle
    unfold AuthService.loginUser
    simp only [hfind]
    rw [if_pos hgoogle]

/-- Witness for C4 amended: the third conjunct at the concrete google
identity — its (even hypothetical) password hash is unreachable, the login is
rejected with the google-account message before any password check. -/
theorem c4_invariant_amended_witness :
    AuthService.loginUser demoCompare cfgDemo 1000 "sA" "sR" [c4GoogleUser] [] "g@x.com" "pw"
      = (.error (.authentication (some MSG_GOOGLE_ACCOUNT_REQUIRED)), [c4GoogleUser]) :=
  c4_invariant_amended.2.2 demoCompare cfgDemo 1000 "sA" "sR" [c4GoogleUser] []
    "g@x.com" "pw" c4GoogleUser (by decide) rfl
